import Mathlib

/-!
Verification of the python gateway layer of mistral.rs
(`mistralrs-pyo3/src/lib.rs`): request normalization, the synchronous
bridge over the engine queue, and the cached device resolver.

Machine reals (`f64`, `f32`) carry no arithmetic in this layer — they are
only copied — so they are embedded as `ℚ`; `usize`/`u32` become `Nat`.
-/

namespace MistralPy

/-- `candle_core::Device`. The gateway treats it as an opaque cloneable
handle; the concrete constructors mirror the backends candle exposes. -/
inductive Device where
  | Cpu : Device
  | Cuda (ordinal : Nat) : Device
  | Metal (ordinal : Nat) : Device
deriving DecidableEq, Repr

/-- `mistralrs::StopTokens`: stop conditions are either explicit token ids
or text sequences. -/
inductive StopTokens where
  | Ids (ids : List Nat) : StopTokens
  | Seqs (seqs : List String) : StopTokens
deriving DecidableEq, Repr

/-- `mistralrs::SamplingParams` as populated by the gateway. -/
structure SamplingParams where
  temperature : Option ℚ
  top_k : Option Nat
  top_p : Option ℚ
  top_n_logprobs : Nat
  repeat_penalty : Option ℚ
  presence_penalty : Option ℚ
  max_len : Option Nat
  stop_toks : Option StopTokens
deriving DecidableEq, Repr

/-- The python-facing `Request` pyclass (the Incoming Request). The
`HashMap<String, String>` message entries become association lists; the
`HashMap<u32, f64>` logit bias likewise. -/
structure Request where
  messages : List (List (String × String))
  model : String
  logit_bias : Option (List (Nat × ℚ))
  logprobs : Bool
  top_logprobs : Option Nat
  max_tokens : Option Nat
  n_choices : Nat
  presence_penalty : Option ℚ
  repetition_penalty : Option ℚ
  stop_token_ids : Option (List Nat)
  temperature : Option ℚ
  top_p : Option ℚ
  top_k : Option Nat
deriving DecidableEq, Repr

/-- Modelled from the spec: the successful result payload carried by
`Response::Done` (the concrete `ChatCompletionResponse` lives in the core
crate, outside this layer; the spec's scenario uses a payload with a text
field, e.g. `Done({"text":"Hello"})`). -/
structure CompletionPayload where
  text : String
deriving DecidableEq, Repr

/-- `mistralrs::Response`: either a completed payload or an error; the
error's `to_string()` rendering is what the gateway observes. -/
inductive Response where
  | Done (payload : CompletionPayload) : Response
  | Error (msg : String) : Response
deriving DecidableEq, Repr

/-- The pure content of the internal `mistralrs::Request` built by
`add_request` (`prompt`, `sampling_params`, `return_logprobs`); the
per-call reply channel is modelled separately by the engine behaviour. -/
structure InternalRequest where
  prompt : String
  sampling_params : SamplingParams
  return_logprobs : Bool
deriving DecidableEq, Repr

/-- Observable behaviour of the engine side of one `add_request` call:
whether the shared submission queue accepts the send (the receiver is
alive), and what, if anything, arrives on the per-call reply channel
(`none` models the reply channel closing without a `Response`). -/
structure Engine where
  accepts : Bool
  reply : Option Response
deriving DecidableEq, Repr

/-- Outcome of one `add_request` call as seen at the language boundary:
a returned string, a raised `PyValueError` with a message, or a Rust
panic (from `.unwrap()` on a failed send/recv). -/
inductive Outcome where
  | ok (s : String) : Outcome
  | err (msg : String) : Outcome
  | panicked (msg : String) : Outcome
deriving DecidableEq, Repr

/-!  Serialization of the successful payload. -/

/-- Modelled from the spec: JSON string-escaping as `serde_json` performs
it for the payload's text field (quote and backslash are escaped). -/
def escapeChars : List Char → List Char
  | [] => []
  | c :: cs =>
      if c = '"' ∨ c = '\\' then '\\' :: c :: escapeChars cs
      else c :: escapeChars cs

/-- Modelled from the spec: `serde_json::to_string` on the payload — a
self-describing structured text rendering `{"text":"..."}`. -/
def serde_json_to_string (p : CompletionPayload) : String :=
  String.mk
    ('\x7b' :: '"' :: 't' :: 'e' :: 'x' :: 't' :: '"' :: ':' :: '"' ::
      (escapeChars p.text.data ++ ['"', '\x7d']))

/-- Parse an escaped JSON string body up to its closing quote, returning
the decoded characters and the rest of the input. -/
def parseStringBody : List Char → Option (List Char × List Char)
  | [] => none
  | c :: cs =>
      if c = '\\' then
        match cs with
        | [] => none
        | c2 :: cs2 =>
            match parseStringBody cs2 with
            | some (s, rest) => some (c2 :: s, rest)
            | none => none
      else if c = '"' then some ([], cs)
      else
        match parseStringBody cs with
        | some (s, rest) => some (c :: s, rest)
        | none => none

/-- Modelled from the spec: `serde_json::from_str` for the payload,
inverting `serde_json_to_string`. -/
def serde_json_from_str (s : String) : Option CompletionPayload :=
  match s.data with
  | '\x7b' :: '"' :: 't' :: 'e' :: 'x' :: 't' :: '"' :: ':' :: '"' :: rest =>
      match parseStringBody rest with
      | some (body, ['\x7d']) => some ⟨String.mk body⟩
      | _ => none
  | _ => none

/-!  The gateway operations. -/

/-- A `Conversation` (Prompt Formatter): turns a message history and the
`add_generation_prompt` flag into a prompt string, or fails; the failure's
`to_string()` rendering is the `String`. -/
def Conversation : Type := List (List (String × String)) → Bool → Except String String

/-- Full record of one `add_request` call: every call made to the Prompt
Formatter (with its flag), every Internal Request actually handed to the
engine's submission queue, and the outcome at the boundary. -/
structure CallRecord where
  formatterCalls : List (List (List (String × String)) × Bool)
  submissions : List InternalRequest
  outcome : Outcome
deriving DecidableEq, Repr

/-- The `SamplingParams` value `add_request` builds from the incoming
request (`top_n_logprobs` via `unwrap_or(1)`, `stop_toks` via
`map(StopTokens::Ids)`). -/
def sampling_params_of (request : Request) : SamplingParams :=
  { temperature := request.temperature
    top_k := request.top_k
    top_p := request.top_p
    top_n_logprobs := request.top_logprobs.getD 1
    repeat_penalty := request.repetition_penalty
    presence_penalty := request.presence_penalty
    max_len := request.max_tokens
    stop_toks := request.stop_token_ids.map StopTokens.Ids }

/-- The internal request `add_request` builds once the Prompt Formatter
has produced `prompt`. -/
def model_request_of (prompt : String) (request : Request) : InternalRequest :=
  { prompt := prompt
    sampling_params := sampling_params_of request
    return_logprobs := request.logprobs }

/-- `MistralRunner::add_request`, instrumented with the calls it makes.
It formats the prompt (early `PyValueError` return on failure), builds the
internal request, sends it on the engine queue (`.unwrap()` panics if the
queue rejects it), blocks on the reply channel (`.unwrap()` panics if the
channel closes without a response), and maps `Response::Error` to a
`PyValueError` and `Response::Done` to the serialized payload. -/
def add_request (conversation : Conversation) (engine : Engine)
    (request : Request) : CallRecord :=
  match conversation request.messages true with
  | .error e =>
      { formatterCalls := [(request.messages, true)]
        submissions := []
        outcome := .err e }
  | .ok prompt =>
      let model_request := model_request_of prompt request
      if engine.accepts then
        match engine.reply with
        | none =>
            { formatterCalls := [(request.messages, true)]
              submissions := [model_request]
              outcome := .panicked "called Result::unwrap on an Err value: RecvError" }
        | some (.Error e) =>
            { formatterCalls := [(request.messages, true)]
              submissions := [model_request]
              outcome := .err e }
        | some (.Done payload) =>
            { formatterCalls := [(request.messages, true)]
              submissions := [model_request]
              outcome := .ok (serde_json_to_string payload) }
      else
        { formatterCalls := [(request.messages, true)]
          submissions := []
          outcome := .panicked "called Result::unwrap on an Err value: SendError" }

/-!  The device resolver. -/

/-- One `get_device` call: given the result the hardware probe would
produce and the current cached slot, return the call's result, the slot
after the call, and whether the probe ran. If the slot holds a device it
is cloned and returned without probing; otherwise the probe runs, `?`
propagates its failure (leaving the slot empty), and on success the
result is stored and returned. -/
def get_device (probe : Except String Device) (slot : Option Device) :
    Except String Device × Option Device × Bool :=
  match slot with
  | some device => (.ok device, some device, false)
  | none =>
      match probe with
      | .error e => (.error e, none, true)
      | .ok res => (.ok res, some res, true)

/-- Run `n` successive `get_device` calls from a starting slot, collecting
each call's result, the final slot, and how many probes ran. -/
def get_device_seq (probe : Except String Device) :
    Nat → Option Device → List (Except String Device) × Option Device × Nat
  | 0, slot => ([], slot, 0)
  | n + 1, slot =>
      let (r, slot', probed) := get_device probe slot
      let (rs, slotF, count) := get_device_seq probe n slot'
      (r :: rs, slotF, (if probed then 1 else 0) + count)

/-!  Concrete sample values used by the witnesses. -/

/-- The spec's scenario request: message history
`[{"role":"user","content":"Hi"}]`, no optional fields set. -/
def baseRequest : Request :=
  { messages := [[("role", "user"), ("content", "Hi")]]
    model := "mistral"
    logit_bias := none
    logprobs := false
    top_logprobs := none
    max_tokens := none
    n_choices := 1
    presence_penalty := none
    repetition_penalty := none
    stop_token_ids := none
    temperature := none
    top_p := none
    top_k := none }

/-- A Prompt Formatter that accepts every history. -/
def okConv : Conversation := fun _ _ => .ok "[INST] Hi [/INST]"

/-- A Prompt Formatter that rejects every history. -/
def badConv : Conversation := fun _ _ => .error "template error"

/-- An engine that accepts the submission and replies `Done`. -/
def doneEngine : Engine := { accepts := true, reply := some (.Done ⟨"Hello"⟩) }

/-!  Theorems. -/

/-- Parsing an escaped string body recovers the original characters and
leaves the remainder of the input untouched. -/
theorem parseStringBody_escapeChars (cs rest : List Char) :
    parseStringBody (escapeChars cs ++ '"' :: rest) = some (cs, rest) := by
  induction cs with
  | nil =>
      rw [parseStringBody.eq_def]
      simp [escapeChars]
  | cons c cs ih =>
      by_cases h : c = '"' ∨ c = '\\'
      · rw [escapeChars, if_pos h, List.cons_append, List.cons_append,
          parseStringBody.eq_def]
        simp [ih]
      · push_neg at h
        rw [escapeChars, if_neg (not_or.mpr ⟨h.1, h.2⟩), List.cons_append,
          parseStringBody.eq_def]
        simp [h.1, h.2, ih]

/-- Serializing a payload and deserializing the result gives the payload
back. -/
theorem serde_json_roundtrip (p : CompletionPayload) :
    serde_json_from_str (serde_json_to_string p) = some p := by
  show (match parseStringBody (escapeChars p.text.data ++ '"' :: ['\x7d']) with
        | some (body, ['\x7d']) => some (⟨String.mk body⟩ : CompletionPayload)
        | _ => none) = some p
  rw [parseStringBody_escapeChars]
  rfl

/-- C3: the `top_n_logprobs` field of the Internal Request built by
`add_request` equals the caller-specified `top_logprobs` value when it is
present, and equals exactly 1 when it is absent, regardless of the
`logprobs` flag. -/
theorem top_n_logprobs_default (prompt : String) (request : Request) :
    (∀ k, request.top_logprobs = some k →
      (model_request_of prompt request).sampling_params.top_n_logprobs = k) ∧
    (request.top_logprobs = none →
      (model_request_of prompt request).sampling_params.top_n_logprobs = 1) := by
  constructor
  · intro k hk
    simp [model_request_of, sampling_params_of, hk]
  · intro hk
    simp [model_request_of, sampling_params_of, hk]

/-- Witness for C3: a request with `top_logprobs = some 5` yields 5, the
base request (no `top_logprobs`) yields 1. -/
theorem top_n_logprobs_default_witness :
    (model_request_of "p" { baseRequest with top_logprobs := some 5
      }).sampling_params.top_n_logprobs = 5 ∧
    (model_request_of "p" baseRequest).sampling_params.top_n_logprobs = 1 :=
  ⟨(top_n_logprobs_default "p" _).1 5 rfl,
   (top_n_logprobs_default "p" baseRequest).2 rfl⟩

/-- C6: every optional numeric sampling field (temperature, top-k, top-p,
repetition-penalty, presence-penalty, max-tokens) is copied into the
Internal Request's sampling parameters exactly as supplied when present
and stays unset when absent — the `Option` values are equal, so no range
check or other modification is applied at this layer. -/
theorem numeric_fields_passthrough (prompt : String) (request : Request) :
    (model_request_of prompt request).sampling_params.temperature
        = request.temperature ∧
    (model_request_of prompt request).sampling_params.top_k = request.top_k ∧
    (model_request_of prompt request).sampling_params.top_p = request.top_p ∧
    (model_request_of prompt request).sampling_params.repeat_penalty
        = request.repetition_penalty ∧
    (model_request_of prompt request).sampling_params.presence_penalty
        = request.presence_penalty ∧
    (model_request_of prompt request).sampling_params.max_len
        = request.max_tokens :=
  ⟨rfl, rfl, rfl, rfl, rfl, rfl⟩

/-- C5: a present, non-empty stop-token-id list becomes a token-id stop
condition (`StopTokens.Ids`, not a text-based `Seqs`) holding exactly the
caller's ids, unchanged in order and value. -/
theorem stop_tokens_ids_unchanged (prompt : String) (request : Request)
    (ids : List Nat) (hst : request.stop_token_ids = some ids)
    (hne : ids ≠ []) :
    (model_request_of prompt request).sampling_params.stop_toks
      = some (StopTokens.Ids ids) := by
  simp [model_request_of, sampling_params_of, hst]

/-- Witness for C5: stop ids `[42, 7]` arrive as `StopTokens.Ids [42, 7]`. -/
theorem stop_tokens_ids_unchanged_witness :
    (model_request_of "p" { baseRequest with stop_token_ids := some [42, 7]
      }).sampling_params.stop_toks = some (StopTokens.Ids [42, 7]) :=
  stop_tokens_ids_unchanged "p" _ [42, 7] rfl (by decide)

/-- C10: on every path through `add_request` the Prompt Formatter is
invoked exactly once, with the trailing-generation-marker flag `true`;
no path calls it with `false`. -/
theorem formatter_flag_always_true (conversation : Conversation)
    (engine : Engine) (request : Request) :
    (add_request conversation engine request).formatterCalls
      = [(request.messages, true)] := by
  unfold add_request
  cases conversation request.messages true with
  | error e => rfl
  | ok prompt =>
      by_cases ha : engine.accepts
      · simp only [if_pos ha]
        cases engine.reply with
        | none => rfl
        | some r => cases r <;> rfl
      · simp only [if_neg ha]

/-- C4: when the Prompt Formatter rejects the message history,
`add_request` surfaces the formatter's error immediately and nothing is
submitted to the engine queue. -/
theorem formatter_reject_no_submission (conversation : Conversation)
    (engine : Engine) (request : Request) (e : String)
    (hp : conversation request.messages true = .error e) :
    (add_request conversation engine request).outcome = .err e ∧
    (add_request conversation engine request).submissions = [] := by
  unfold add_request
  rw [hp]
  exact ⟨rfl, rfl⟩

/-- Witness for C4: a rejecting formatter yields the error and an empty
submission list, with an engine standing by. -/
theorem formatter_reject_no_submission_witness :
    (add_request badConv doneEngine baseRequest).outcome
        = .err "template error" ∧
    (add_request badConv doneEngine baseRequest).submissions = [] :=
  formatter_reject_no_submission badConv doneEngine baseRequest
    "template error" rfl

/-- C2: when the engine delivers `Response::Error(e)`, the call fails with
a `PyValueError` whose message equals `e` verbatim. -/
theorem engine_error_verbatim (conversation : Conversation) (engine : Engine)
    (request : Request) (prompt : String) (e : String)
    (hp : conversation request.messages true = .ok prompt)
    (ha : engine.accepts = true)
    (hr : engine.reply = some (.Error e)) :
    (add_request conversation engine request).outcome = .err e := by
  unfold add_request
  rw [hp]
  simp only [if_pos ha, hr]

/-- Witness for C2: `Error("out of memory")` yields a failure whose
message equals `"out of memory"`. -/
theorem engine_error_verbatim_witness :
    (add_request okConv { accepts := true, reply := some (.Error "out of memory") }
      baseRequest).outcome = .err "out of memory" :=
  engine_error_verbatim okConv _ baseRequest "[INST] Hi [/INST]"
    "out of memory" rfl rfl rfl

/-- C1 counterexample: with the submission queue closed, `add_request`
does not fail with a surfaced error value at all — the `.unwrap()` on the
failed send panics, so the outcome is a panic and is not `err m` for any
message `m`. -/
theorem closed_queue_panics_not_err :
    (add_request okConv { accepts := false, reply := none }
        baseRequest).outcome
      = .panicked "called Result::unwrap on an Err value: SendError" ∧
    ∀ m, (add_request okConv { accepts := false, reply := none }
        baseRequest).outcome ≠ .err m := by
  refine ⟨rfl, fun m h => ?_⟩
  rw [show (add_request okConv { accepts := false, reply := none }
      baseRequest).outcome
    = .panicked "called Result::unwrap on an Err value: SendError" from rfl] at h
  exact Outcome.noConfusion h

/-- C1 (amended): when the submission queue rejects the request, or the
reply channel closes without delivering a `Response`, the call panics via
`.unwrap()` on the failed send/recv instead of returning an error value. -/
theorem transport_failure_panics (conversation : Conversation)
    (engine : Engine) (request : Request) (prompt : String)
    (hp : conversation request.messages true = .ok prompt) :
    (engine.accepts = false →
      (add_request conversation engine request).outcome
        = .panicked "called Result::unwrap on an Err value: SendError") ∧
    (engine.accepts = true → engine.reply = none →
      (add_request conversation engine request).outcome
        = .panicked "called Result::unwrap on an Err value: RecvError") := by
  unfold add_request
  rw [hp]
  constructor
  · intro ha
    simp only [ha, Bool.false_eq_true, if_false]
  · intro ha hr
    simp only [ha, if_true, hr]

/-- Witness for C1 (amended): a rejecting queue, then an accepted send
whose reply channel closes, each produce the corresponding panic. -/
theorem transport_failure_panics_witness :
    (add_request okConv { accepts := false, reply := none }
        { baseRequest with model := "m2" }).outcome
      = .panicked "called Result::unwrap on an Err value: SendError" ∧
    (add_request okConv { accepts := true, reply := none }
        { baseRequest with model := "m2" }).outcome
      = .panicked "called Result::unwrap on an Err value: RecvError" :=
  ⟨(transport_failure_panics okConv { accepts := false, reply := none }
      { baseRequest with model := "m2" } "[INST] Hi [/INST]" rfl).1 rfl,
   (transport_failure_panics okConv { accepts := true, reply := none }
      { baseRequest with model := "m2" } "[INST] Hi [/INST]" rfl).2 rfl rfl⟩

/-- C8: when the engine delivers `Response::Done(payload)`, the call
returns the serialized payload, and deserializing that string yields a
value equal to `payload`. -/
theorem done_serialization_roundtrip (conversation : Conversation)
    (engine : Engine) (request : Request) (prompt : String)
    (payload : CompletionPayload)
    (hp : conversation request.messages true = .ok prompt)
    (ha : engine.accepts = true)
    (hr : engine.reply = some (.Done payload)) :
    (add_request conversation engine request).outcome
        = .ok (serde_json_to_string payload) ∧
    serde_json_from_str (serde_json_to_string payload) = some payload := by
  refine ⟨?_, serde_json_roundtrip payload⟩
  unfold add_request
  rw [hp]
  simp only [if_pos ha, hr]

/-- Witness for C8: the spec's scenario — `Done({"text":"Hello"})` comes
back as the string whose deserialization is `{"text":"Hello"}`. -/
theorem done_serialization_roundtrip_witness :
    (add_request okConv doneEngine baseRequest).outcome
        = .ok (serde_json_to_string ⟨"Hello"⟩) ∧
    serde_json_from_str (serde_json_to_string ⟨"Hello"⟩) = some ⟨"Hello"⟩ :=
  done_serialization_roundtrip okConv doneEngine baseRequest
    "[INST] Hi [/INST]" ⟨"Hello"⟩ rfl rfl rfl

/-- C9: two incoming requests that agree on every field except
`logit_bias` and `n_choices` produce identical calls: same formatter
calls, same submitted Internal Requests (prompt, sampling parameters,
log-probabilities flag), same outcome — the two fields are inert. -/
theorem logit_bias_n_choices_inert (conversation : Conversation)
    (engine : Engine) (r1 r2 : Request)
    (hmsg : r1.messages = r2.messages)
    (hmod : r1.model = r2.model)
    (hlp : r1.logprobs = r2.logprobs)
    (htl : r1.top_logprobs = r2.top_logprobs)
    (hmt : r1.max_tokens = r2.max_tokens)
    (hpp : r1.presence_penalty = r2.presence_penalty)
    (hrp : r1.repetition_penalty = r2.repetition_penalty)
    (hst : r1.stop_token_ids = r2.stop_token_ids)
    (hte : r1.temperature = r2.temperature)
    (htp : r1.top_p = r2.top_p)
    (htk : r1.top_k = r2.top_k) :
    add_request conversation engine r1 = add_request conversation engine r2 := by
  have hmr : ∀ prompt, model_request_of prompt r1 = model_request_of prompt r2 := by
    intro prompt
    simp [model_request_of, sampling_params_of, hlp, htl, hmt, hpp, hrp,
      hst, hte, htp, htk]
  simp only [add_request, hmsg, hmr]

/-- Witness for C9: adding a logit bias and tripling `n_choices` leaves
the call record unchanged. -/
theorem logit_bias_n_choices_inert_witness :
    add_request okConv doneEngine baseRequest
      = add_request okConv doneEngine
          { baseRequest with logit_bias := some [(5, 2)], n_choices := 3 } :=
  logit_bias_n_choices_inert okConv doneEngine baseRequest
    { baseRequest with logit_bias := some [(5, 2)], n_choices := 3 }
    rfl rfl rfl rfl rfl rfl rfl rfl rfl rfl rfl

/-- Calls that find the slot filled return the cached device and never
probe or rewrite the slot, whatever the probe would do. -/
theorem get_device_seq_filled (probe : Except String Device) (d : Device) :
    ∀ n, get_device_seq probe n (some d)
      = (List.replicate n (.ok d), some d, 0) := by
  intro n
  induction n with
  | zero => rfl
  | succ n ih => simp [get_device_seq, get_device, ih, List.replicate]

/-- C7: starting from the empty slot, a sequence of `n + 1` calls with a
succeeding probe runs the probe exactly once — the first call stores the
result — every call returns that same device, and the slot ends (and
stays) filled with it. -/
theorem probe_runs_exactly_once (probe : Except String Device) (d : Device)
    (n : Nat) (hp : probe = .ok d) :
    get_device_seq probe (n + 1) none
      = (List.replicate (n + 1) (.ok d), some d, 1) := by
  rw [get_device_seq, hp, get_device]
  simp [get_device_seq_filled, List.replicate]

/-- Witness for C7: three calls with a CPU-probing backend — one probe,
three identical results, slot filled with the CPU device. -/
theorem probe_runs_exactly_once_witness :
    get_device_seq (.ok Device.Cpu) 3 none
      = (List.replicate 3 (.ok Device.Cpu), some Device.Cpu, 1) :=
  probe_runs_exactly_once (.ok Device.Cpu) Device.Cpu 2 rfl

end MistralPy
